import Mathlib

/-!
Verification development for the Google-Traces-2019 dashboard repository.

The repository has two source files:
  * `app/wsgi.py` — a Flask app that logs requests, re-parses its own log
    file into structured events (`parse_logs`) and serves aggregate metrics.
  * `simulate_requests.py` — a trace replayer that groups CSV rows by
    priority and dispatches them round-robin under a per-batch cycle budget.

This file shallowly embeds the relevant functions.  Python strings are
modelled as `List Char`, Python floats as exact rationals (`Rat`),
Python `None` as `Option`, and uncaught Python exceptions as a `none`
result of the enclosing function.  Regular expressions from the source
are translated into equivalent deterministic parsers; each translation
records the regex it models.
-/

/-! ## Basic character/list utilities -/

/-- Decimal digit test (models regex `\d` and Python `str.isdigit` on ASCII). -/
def isDig (c : Char) : Bool := '0' ≤ c && c ≤ '9'

/-- Python regex `\s` on the inputs in play: space, tab, newline, CR, FF, VT. -/
def isPySpace (c : Char) : Bool :=
  [' ', '\x09', '\x0a', '\x0d', '\x0c', '\x0b'].contains c

/-- `pat` is a prefix of `l`. -/
def isPre (pat l : List Char) : Bool := List.isPrefixOf pat l

/-- First index at which `pat` occurs in `l` (substring search). -/
def findSub (pat : List Char) : List Char → Option Nat
  | [] => if pat.isEmpty then some 0 else none
  | c :: rest =>
    if isPre pat (c :: rest) then some 0
    else (findSub pat rest).map (· + 1)

/-- `l` contains `pat` as a contiguous substring. -/
def containsSub (pat l : List Char) : Bool := (findSub pat l).isSome

/-- Consume an exact literal from the front, returning the remainder. -/
def expectLit (pat l : List Char) : Option (List Char) :=
  if isPre pat l then some (l.drop pat.length) else none

/-- Maximal run of characters satisfying `p`, with the remainder. -/
def takeRun (p : Char → Bool) (l : List Char) : List Char × List Char :=
  (l.takeWhile p, l.dropWhile p)

/-- Value of a list of decimal digits. -/
def digitsVal (l : List Char) : Nat :=
  l.foldl (fun acc c => acc * 10 + (c.toNat - '0'.toNat)) 0

/-- Hex digit value, if any (letters via case folding). -/
def hexVal (c : Char) : Option Nat :=
  if isDig c then some (c.toNat - 48)
  else
    let lower := c.toLower
    if 'a' ≤ lower && lower ≤ 'f' then some (lower.toNat - 87) else none


/-! ## Python value model

`PyVal` models the Python values that flow through `json.loads` /
`request.get_json` in the source: `None`, booleans, numbers (ints and
floats collapsed to exact rationals), strings, lists and dicts. -/

inductive PyVal : Type
  | null : PyVal
  | bool : Bool → PyVal
  | num : Rat → PyVal
  | str : String → PyVal
  | list : List PyVal → PyVal
  | dict : List (String × PyVal) → PyVal

/-- Python truthiness (`if not payload`): `None`, `False`, `0`, `""`,
empty list and empty dict are falsy. -/
def pyTruthy : PyVal → Bool
  | .null => false
  | .bool b => b
  | .num q => q != 0
  | .str s => !s.isEmpty
  | .list xs => !xs.isEmpty
  | .dict kvs => !kvs.isEmpty

/-- `d.get(k, dflt)` on a Python dict built by `json.loads`: with duplicate
keys in the JSON text the last occurrence wins, so lookup returns the last
binding of `k`. -/
def lookupLast (kvs : List (String × PyVal)) (k : String) (dflt : PyVal) : PyVal :=
  kvs.foldl (fun acc kv => if kv.1 == k then kv.2 else acc) dflt

/-! ## Python `float(...)` -/

/-- Result of Python `float(x)`: a value, a caught-able `ValueError`
(raised for non-numeric strings), or a `TypeError` (raised for `None`,
lists and dicts), which the source's `except (json.JSONDecodeError,
ValueError)` does NOT catch. -/
inductive FloatRes : Type
  | ok : Rat → FloatRes
  | valueErr : FloatRes
  | typeErr : FloatRes
deriving DecidableEq

/-- Rational value of `sign * (ip . fp) * 10^(esign*ev)`. -/
def ratOfParts (neg : Bool) (ip fp : List Char) (eneg : Bool) (ev : Nat) : Rat :=
  let mant : Rat := (digitsVal ip : Rat) + (digitsVal fp : Rat) / ((10 : Rat) ^ fp.length)
  let scaled : Rat := if eneg then mant / ((10 : Rat) ^ ev) else mant * ((10 : Rat) ^ ev)
  if neg then -scaled else scaled

/-- Optional exponent part `[eE][+-]?\d+`; returns `(eneg, ev, rest)`;
`none` means a malformed exponent (error), `some` with `rest` untouched
means no exponent present. -/
def parseExp (l : List Char) : Option (Bool × Nat × List Char) :=
  match l with
  | 'e' :: t | 'E' :: t =>
    let (eneg, t2) :=
      match t with
      | '+' :: t2 => (false, t2)
      | '-' :: t2 => (true, t2)
      | _ => (false, t)
    let (ds, t3) := takeRun isDig t2
    if ds.isEmpty then none else some (eneg, digitsVal ds, t3)
  | _ => some (false, 0, l)

/-- Exponent suffix and final assembly shared by the number grammars. -/
def finishNumber (neg : Bool) (ip fp : List Char) (t : List Char) :
    Option (Rat × List Char) :=
  (parseExp t).map (fun e => (ratOfParts neg ip fp e.1 e.2.1, e.2.2))

/-- Model of Python `float(s)` on a string: strips surrounding whitespace,
then `[+-]? (digits [. digits?] | . digits) [exponent]`.  The special
forms `inf`/`nan` and digit underscores are not modelled (they do not
occur in this repository's data).  `none` models `ValueError`. -/
def pyFloatChars (s : List Char) : Option Rat :=
  let core := ((s.dropWhile isPySpace).reverse.dropWhile isPySpace).reverse
  let (neg, t0) : Bool × List Char :=
    if core.headD ' ' == '+' then (false, core.tail)
    else if core.headD ' ' == '-' then (true, core.tail)
    else (false, core)
  let (ip, t1) := takeRun isDig t0
  let (fp, t2) :=
    match t1 with
    | '.' :: t => takeRun isDig t
    | _ => ([], t1)
  if ip.isEmpty && fp.isEmpty then none
  else
    (finishNumber neg ip fp t2).bind
      (fun q => if q.2.isEmpty then some q.1 else none)

/-- Python `float(x)` on a `PyVal` (models the calls at wsgi.py:146-147). -/
def pyFloat : PyVal → FloatRes
  | .num q => .ok q
  | .bool b => .ok (if b then 1 else 0)
  | .str s =>
    match pyFloatChars s.data with
    | some q => .ok q
    | none => .valueErr
  | .null => .typeErr
  | .list _ => .typeErr
  | .dict _ => .typeErr

/-- Python `int(q)` for a float: truncation toward zero. -/
def pyTrunc (q : Rat) : Int :=
  if q.num ≥ 0 then ((q.num.toNat / q.den : Nat) : Int)
  else -(((-q.num).toNat / q.den : Nat) : Int)

/-! ## Model of Python `json.loads`

A single fuel-indexed recursive parser (structural on the fuel, so that
concrete runs reduce inside the kernel).  The grammar is the JSON the
standard `json` module accepts: objects, arrays, double-quoted strings
with the standard escapes, numbers, `true`/`false`/`null`.  The Python
extensions `NaN`/`Infinity` are not modelled (they never occur in this
repository's payloads). -/

/-- JSON whitespace skip. -/
def skipWs (l : List Char) : List Char := (takeRun (fun c => isPySpace c) l).2

/-- Decoded character for a single-letter escape (`\uXXXX` is handled
separately); the table of `json`'s standard escapes. -/
def escChar (e : Char) : Option Char :=
  if e == '"' || e == '\\' || e == '/' then some e
  else if e == 'b' then some '\x08'
  else if e == 'f' then some '\x0c'
  else if e == 'n' then some '\x0a'
  else if e == 'r' then some '\x0d'
  else if e == 't' then some '\x09'
  else none

/-- Prepend a decoded character to the pending string content. -/
def consFst (c : Char) (p : List Char × List Char) : List Char × List Char :=
  (c :: p.1, p.2)

/-- Body of a JSON string after the opening quote: returns the decoded
content and the remainder after the closing quote. -/
def jsonStringBody : List Char → Option (List Char × List Char)
  | [] => none
  | '"' :: r => some ([], r)
  | '\\' :: 'u' :: h1 :: h2 :: h3 :: h4 :: r =>
    match hexVal h1, hexVal h2, hexVal h3, hexVal h4 with
    | some a, some b, some c, some d =>
      (jsonStringBody r).map (consFst (Char.ofNat (((a * 16 + b) * 16 + c) * 16 + d)))
    | _, _, _, _ => none
  | '\\' :: e :: r =>
    match escChar e with
    | some ch => (jsonStringBody r).map (consFst ch)
    | none => none
  | c :: r => (jsonStringBody r).map (consFst c)

/-- JSON number: `-? int frac? exp?` with the strict leading-zero rule. -/
def jsonNumber (l : List Char) : Option (Rat × List Char) :=
  let (neg, t0) : Bool × List Char :=
    if l.headD ' ' == '-' then (true, l.tail) else (false, l)
  let (ip, t1) := takeRun isDig t0
  match ip with
  | [] => none
  | d0 :: ds =>
    if d0 == '0' && !ds.isEmpty then none
    else
      match t1 with
      | '.' :: t =>
        let (fp, t2) := takeRun isDig t
        if fp.isEmpty then none else finishNumber neg ip fp t2
      | _ => finishNumber neg ip [] t1

/-- Parsing task: a value, the members of an object, or the items of an
array (with the bindings accumulated so far). -/
inductive JTask : Type
  | value : JTask
  | members : List (String × PyVal) → JTask
  | items : List PyVal → JTask

/-- Fuel-indexed JSON parser. -/
def jsonP : Nat → JTask → List Char → Option (PyVal × List Char)
  | 0, _, _ => none
  | f + 1, .value, l =>
    match skipWs l with
    | '\x7b' :: r =>
      match skipWs r with
      | '\x7d' :: r2 => some (.dict [], r2)
      | _ => jsonP f (.members []) r
    | '[' :: r =>
      match skipWs r with
      | ']' :: r2 => some (.list [], r2)
      | _ => jsonP f (.items []) r
    | '"' :: r => (jsonStringBody r).map (fun p => (.str (String.mk p.1), p.2))
    | 't' :: r => (expectLit ['r', 'u', 'e'] r).map (fun r2 => (.bool true, r2))
    | 'f' :: r => (expectLit ['a', 'l', 's', 'e'] r).map (fun r2 => (.bool false, r2))
    | 'n' :: r => (expectLit ['u', 'l', 'l'] r).map (fun r2 => (.null, r2))
    | rest => (jsonNumber rest).map (fun p => (.num p.1, p.2))
  | f + 1, .members acc, l =>
    match skipWs l with
    | '"' :: r =>
      match jsonStringBody r with
      | none => none
      | some (k, r2) =>
        match skipWs r2 with
        | ':' :: r3 =>
          match jsonP f .value r3 with
          | none => none
          | some (v, r4) =>
            match skipWs r4 with
            | ',' :: r5 => jsonP f (.members (acc ++ [(String.mk k, v)])) r5
            | '\x7d' :: r5 => some (.dict (acc ++ [(String.mk k, v)]), r5)
            | _ => none
        | _ => none
    | _ => none
  | f + 1, .items acc, l =>
    match jsonP f .value l with
    | none => none
    | some (v, r) =>
      match skipWs r with
      | ',' :: r2 => jsonP f (.items (acc ++ [v])) r2
      | ']' :: r2 => some (.list (acc ++ [v]), r2)
      | _ => none

/-- Model of `json.loads` on a character list: parse one value and require
only whitespace to remain (trailing junk is an error). -/
def jsonLoads (l : List Char) : Option PyVal :=
  match jsonP (2 * l.length + 4) .value l with
  | some (v, rest) => if (skipWs rest).isEmpty then some v else none
  | none => none

example : jsonLoads "\x7b\"cpus\": 0.5, \"memory\": 2.5\x7d".data =
    some (.dict [("cpus", .num (1 / 2)), ("memory", .num (5 / 2))]) := by
  with_unfolding_all rfl
example : jsonLoads "\x7b\"a\": [1, \"x\"], \"b\": null\x7d".data =
    some (.dict [("a", .list [.num 1, .str "x"]), ("b", .null)]) := by
  with_unfolding_all rfl
example : jsonLoads "\x7b\"a\": tru\x7d".data = none := by with_unfolding_all rfl
example : pyFloatChars "2.5".data = some (5 / 2) := by with_unfolding_all rfl
example : pyFloatChars "1.2.3".data = none := by with_unfolding_all rfl
example : pyFloatChars "123.0".data = some 123 := by with_unfolding_all rfl
example : pyTrunc (123 : Rat) = 123 := by with_unfolding_all rfl

/-! ## Events and the log-line grammar of `app/wsgi.py`

`parse_logs` (wsgi.py:106-170) scans the log file line by line.  Each
regex of the source is translated into an equivalent deterministic
parser over `List Char`; the translation of each one states the regex it
models.  A line is whatever string `readlines()` yields; the model is
over arbitrary strings, so a trailing `"\n"` is handled exactly as the
regexes handle it (in particular the class `[^?]+` absorbs it into
`path` on query-less lines).  The concrete instances below use
newline-free lines for readability; every property proved — invalid
path shapes dropped, the uppercase type segment, the 3-record lookahead
windows, payload-field resolution — is insensitive to that trailing
character. -/

/-- A reconstructed cluster event: the dict appended at wsgi.py:159-168. -/
structure Event where
  timestamp : String
  container_id : String
  event_type : String
  collection_id : String
  cpu : Rat
  memory : Rat
  status : Option Nat
  priority : Int
deriving DecidableEq

/-- The four captures of the primary-line regex (wsgi.py:116). -/
structure GenMatch where
  timestamp : List Char
  container_id : List Char
  path : List Char
  query : List Char
deriving DecidableEq

/-- Character class `[\d.]` used by the query and search regexes. -/
def isDigDot (c : Char) : Bool := isDig c || c == '.'

/-- Shape test: each listed predicate matches one character, in order. -/
def matchShape : List (Char → Bool) → List Char → Bool
  | [], _ => true
  | _ :: _, [] => false
  | p :: ps, c :: t => p c && matchShape ps t

/-- The 19-character shape `\d{4}-\d{2}-\d{2} \d{2}:\d{2}:\d{2}`. -/
def tsShape : List (Char → Bool) :=
  List.replicate 4 isDig ++ [(· == '-')] ++ List.replicate 2 isDig ++ [(· == '-')] ++
  List.replicate 2 isDig ++ [(· == ' ')] ++ List.replicate 2 isDig ++ [(· == ':')] ++
  List.replicate 2 isDig ++ [(· == ':')] ++ List.replicate 2 isDig

/-- Leading timestamp of the primary-line regex; 19 characters. -/
def parseTs (l : List Char) : Option (List Char × List Char) :=
  if matchShape tsShape l then some (l.take 19, l.drop 19) else none

/-- Optional query group `(\?cpus=[\d.]+&memory=[\d.]+)?` of the
primary-line regex: returns the consumed text, or `none` when the group
matches empty (the regex then still succeeds with `query = ''`). -/
def queryMatch (l : List Char) : Option (List Char) :=
  match l with
  | '?' :: r =>
    match expectLit "cpus=".data r with
    | none => none
    | some r2 =>
      let (a, r3) := takeRun isDigDot r2
      if a.isEmpty then none
      else
        match expectLit "&memory=".data r3 with
        | none => none
        | some r4 =>
          let (b, _) := takeRun isDigDot r4
          if b.isEmpty then none
          else some ('?' :: ("cpus=".data ++ a ++ "&memory=".data ++ b))
  | _ => none

/-- Model of the primary-line regex (wsgi.py:116):
`re.match(r'(\d{4}-\d{2}-\d{2} \d{2}:\d{2}:\d{2}) - App: \S+ - Handled by: (\S+) - path: (/cluster/event/[^?]+)(\?cpus=[\d.]+&memory=[\d.]+)?', line)`.
Greedy `\S+` runs followed by literals that begin with a space, and the
greedy `[^?]+` followed by an optional group that must begin with `?`,
make the match deterministic, so a sequential parse is equivalent. -/
def generalMatch (l : List Char) : Option GenMatch :=
  match parseTs l with
  | none => none
  | some (ts, r1) =>
    match expectLit " - App: ".data r1 with
    | none => none
    | some r2 =>
      let (app, r3) := takeRun (fun c => !isPySpace c) r2
      if app.isEmpty then none
      else
        match expectLit " - Handled by: ".data r3 with
        | none => none
        | some r4 =>
          let (cid, r5) := takeRun (fun c => !isPySpace c) r4
          if cid.isEmpty then none
          else
            match expectLit " - path: ".data r5 with
            | none => none
            | some r6 =>
              match expectLit "/cluster/event/".data r6 with
              | none => none
              | some r7 =>
                let (body, r8) := takeRun (fun c => c != '?') r7
                if body.isEmpty then none
                else
                  let query := (queryMatch r8).getD []
                  some ⟨ts, cid, "/cluster/event/".data ++ body, query⟩

/-- Model of the path-shape regex (wsgi.py:126):
`re.match(r'/cluster/event/([^/]+)/([^?]+)', path)`; returns the
`(event-type segment, collection id)` captures.  The match is not
anchored at the end, so the collection capture is the maximal non-`?`
run after the first slash. -/
def pathDecomp (path : List Char) : Option (List Char × List Char) :=
  match expectLit "/cluster/event/".data path with
  | none => none
  | some r =>
    let (seg, r2) := takeRun (fun c => c != '/') r
    if seg.isEmpty then none
    else
      match r2 with
      | '/' :: rest =>
        let (coll, _) := takeRun (fun c => c != '?') rest
        if coll.isEmpty then none else some (seg, coll)
      | _ => none

/-- Model of the query-value search (wsgi.py:136):
`re.search(r'cpus=([\d.]+)&memory=([\d.]+)', query)`.  On the query
strings `generalMatch` produces, the first occurrence of `cpus=` always
yields the full match, so first-occurrence search is equivalent. -/
def queryVals (q : List Char) : Option (List Char × List Char) :=
  match findSub "cpus=".data q with
  | none => none
  | some i =>
    let r := q.drop (i + 5)
    let (a, r2) := takeRun isDigDot r
    if a.isEmpty then none
    else
      match expectLit "&memory=".data r2 with
      | none => none
      | some r3 =>
        let (b, _) := takeRun isDigDot r3
        if b.isEmpty then none else some (a, b)

/-- Rightmost occurrence of `| Status: ` followed by at least one digit;
value of the maximal digit run there (the greedy trailing `.*` of the
status regex selects the last occurrence, and `(\d+)` is maximal). -/
def lastStatusVal : List Char → Option Nat
  | [] => none
  | c :: rest =>
    match lastStatusVal rest with
    | some v => some v
    | none =>
      if isPre "| Status: ".data (c :: rest) then
        let ds := (takeRun isDig ((c :: rest).drop 10)).1
        if ds.isEmpty then none else some (digitsVal ds)
      else none

/-- Model of the status-line regex (wsgi.py:154):
`re.match(rf'.*path: {re.escape(path + query)}.*\| Status: (\d+)', line)`.
The greedy leading `.*` makes this: some occurrence of
`path: <target>`, then the last `| Status: <digits>` after it; taking
the first occurrence of `path: <target>` yields the same capture. -/
def statusLineMatch (target l : List Char) : Option Nat :=
  match findSub ("path: ".data ++ target) l with
  | none => none
  | some i => lastStatusVal (l.drop (i + 6 + target.length))

/-- Index of the last occurrence of a character. -/
def lastIdxOf (ch : Char) : List Char → Option Nat
  | [] => none
  | c :: rest =>
    match lastIdxOf ch rest with
    | some i => some (i + 1)
    | none => if c == ch then some 0 else none

/-- Model of the payload regex (wsgi.py:142):
`re.match(r'.*Payload: ({.*})', line)`: the last occurrence of
`Payload: ` directly followed by an opening brace that still has a
closing brace after it; the capture runs to the last closing brace of
the line. -/
def payloadCapture : List Char → Option (List Char)
  | [] => none
  | c :: rest =>
    match payloadCapture rest with
    | some s => some s
    | none =>
      if isPre "Payload: \x7b".data (c :: rest) then
        let body := (c :: rest).drop 9
        match lastIdxOf '\x7d' body with
        | some q => if 1 ≤ q then some (body.take (q + 1)) else none
        | none => none
      else none

/-- The `try` block at wsgi.py:144-150: `json.loads` the capture, then
`cpu = float(payload.get('cpus', 0))` followed by
`memory = float(payload.get('memory', 0))`, with
`except (json.JSONDecodeError, ValueError)` logging a warning.  The two
`float` calls run sequentially inside one `try`, so a `ValueError` from
the `cpus` field aborts before `memory` is ever parsed, while a
`ValueError` from `memory` keeps the already-assigned `cpu`.  Result is
`(cpu, memory, warned)`; `none` models an uncaught `TypeError`
(`float(None)`, `float(list)`, `float(dict)`) escaping `parse_logs`. -/
def resolvePayload (s : List Char) : Option (Rat × Rat × Bool) :=
  match jsonLoads s with
  | none => some (0, 0, true)
  | some v =>
    match v with
    | .dict kvs =>
      match pyFloat (lookupLast kvs "cpus" (.num 0)) with
      | .typeErr => none
      | .valueErr => some (0, 0, true)
      | .ok c =>
        match pyFloat (lookupLast kvs "memory" (.num 0)) with
        | .typeErr => none
        | .valueErr => some (c, 0, true)
        | .ok m => some (c, m, false)
    | _ => none

/-- Line `j` of the log, as characters (out-of-range reads as empty;
`parse_logs` only indexes inside the list). -/
def lineData (lines : List String) (j : Nat) : List Char := (lines.getD j "").data

/-- Length of the lookahead window `range(i+1, min(i+4, len(lines)))`
used by both the payload scan (wsgi.py:141) and the status scan
(wsgi.py:153). -/
def lookaheadLen (len i : Nat) : Nat := min (i + 4) len - (i + 1)

/-- Payload lookahead (wsgi.py:141-150): starting at `j`, for `k` lines,
find the first payload-shaped line, resolve it, and stop (`break`)
whether or not the resolution succeeded.  No payload line in the window
leaves both resources at 0. -/
def payloadScanFrom (lines : List String) : Nat → Nat → Option (Rat × Rat)
  | _, 0 => some (0, 0)
  | j, k + 1 =>
    match payloadCapture (lineData lines j) with
    | none => payloadScanFrom lines (j + 1) k
    | some s =>
      match resolvePayload s with
      | none => none
      | some (c, m, _) => some (c, m)

/-- Status lookahead (wsgi.py:152-157): starting at `j`, for `k` lines,
the first line matching the status regex wins; none leaves `status`
as `None`. -/
def statusScanFrom (target : List Char) (lines : List String) : Nat → Nat → Option Nat
  | _, 0 => none
  | j, k + 1 =>
    match statusLineMatch target (lineData lines j) with
    | some v => some v
    | none => statusScanFrom target lines (j + 1) k

/-- The filter test at wsgi.py:123:
`if container_ids and container_id not in container_ids: continue`.
An empty list is falsy, so it never excludes anything. -/
def excludedBy (ids : Option (List String)) (cid : String) : Bool :=
  match ids with
  | none => false
  | some l => !l.isEmpty && !(l.contains cid)

/-- Resolution of `cpu`/`memory` for a primary match (wsgi.py:133-150):
with a query string, `float` the two query captures (an uncaught
`ValueError` is `none`; a failed search would leave the zero defaults);
without one, run the payload lookahead. -/
def resolveCM (lines : List String) (i : Nat) (gm : GenMatch) : Option (Rat × Rat) :=
  if !gm.query.isEmpty then
    match queryVals gm.query with
    | none => some (0, 0)
    | some (a, b) =>
      match pyFloatChars a, pyFloatChars b with
      | some c, some m => some (c, m)
      | _, _ => none
  else payloadScanFrom lines (i + 1) (lookaheadLen lines.length i)

/-- One iteration of the scan loop of `parse_logs` (wsgi.py:115-168) at
line index `i`.  `some none`: the line produced no event (regex failure,
filtered origin, or undecomposable path).  `some (some e)`: event `e`
was appended.  `none`: an uncaught exception escaped (`float()` failure
on query values, or `TypeError` in the payload block). -/
def parseAt (ids : Option (List String)) (lines : List String) (i : Nat) :
    Option (Option Event) :=
  match generalMatch (lineData lines i) with
  | none => some none
  | some gm =>
    if excludedBy ids (String.mk gm.container_id) then some none
    else
      match pathDecomp gm.path with
      | none => some none
      | some (seg, coll) =>
        match resolveCM lines i gm with
        | none => none
        | some (c, m) =>
          some (some
            { timestamp := String.mk gm.timestamp
              container_id := String.mk gm.container_id
              event_type := String.mk (seg.map Char.toUpper)
              collection_id := String.mk coll
              cpu := c
              memory := m
              status := statusScanFrom (gm.path ++ gm.query) lines (i + 1)
                          (lookaheadLen lines.length i)
              priority := 0 })

/-- Tail of the scan loop: lines `i, i+1, …` for `n` steps, collecting
appended events in order; `none` propagates an uncaught exception. -/
def parseLogsAux (ids : Option (List String)) (lines : List String) :
    Nat → Nat → Option (List Event)
  | _, 0 => some []
  | i, n + 1 =>
    match parseAt ids lines i with
    | none => none
    | some none => parseLogsAux ids lines (i + 1) n
    | some (some e) => (parseLogsAux ids lines (i + 1) n).map (e :: ·)

/-- Model of `parse_logs(container_ids)` (wsgi.py:106-170) applied to the
list of log lines.  `ids = none` models passing `None`. -/
def parse_logs (ids : Option (List String)) (lines : List String) : Option (List Event) :=
  parseLogsAux ids lines 0 lines.length

example :
    parse_logs none
      ["2024-01-01 00:00:00 - App: app1 - Handled by: c1 - path: /cluster/event/submit/123"] =
    some [⟨"2024-01-01 00:00:00", "c1", "SUBMIT", "123", 0, 0, none, 0⟩] := by
  with_unfolding_all rfl

example :
    parse_logs none
      ["2024-01-01 00:00:00 - App: app1 - Handled by: c1 - path: /cluster/event/schedule/7?cpus=1.5&memory=2"] =
    some [⟨"2024-01-01 00:00:00", "c1", "SCHEDULE", "7", 3 / 2, 2, none, 0⟩] := by
  with_unfolding_all rfl

example :
    parse_logs none
      ["2024-01-01 00:00:00 - App: app1 - Handled by: c1 - path: /cluster/event/fail/1",
       "x path: /cluster/event/fail/1 | Status: 500"] =
    some [⟨"2024-01-01 00:00:00", "c1", "FAIL", "1", 0, 0, some 500, 0⟩] := by
  with_unfolding_all rfl

example :
    parse_logs none
      ["2024-01-01 00:00:00 - App: app1 - Handled by: c1 - path: /cluster/event/enable/9",
       "2024-01-01 00:00:01 - App: app1 - Handled by: c1 - Payload: \x7b\"cpus\": 1.5, \"memory\": 2\x7d"] =
    some [⟨"2024-01-01 00:00:00", "c1", "ENABLE", "9", 3 / 2, 2, none, 0⟩] := by
  with_unfolding_all rfl

example :
    parse_logs (some ["c9"])
      ["2024-01-01 00:00:00 - App: app1 - Handled by: c1 - path: /cluster/event/submit/123"] =
    some [] := by
  with_unfolding_all rfl

/-! ## The log producer: `logging.Formatter` and `log_request` -/

/-- The configured formatter (wsgi.py:19):
`'%(asctime)s - App: %(app_name)s - Handled by: %(container_id)s - %(message)s'`. -/
def formatLine (asctime app_name container_id message : String) : String :=
  asctime ++ " - App: " ++ app_name ++ " - Handled by: " ++ container_id ++ " - " ++ message

/-- Message of the first line `log_request` writes (wsgi.py:73):
`logger.info("path: %s", path, ...)`. -/
def pathLogMessage (path : String) : String := "path: " ++ path

/-- Message of the status line `log_request` writes (wsgi.py:78):
`logger.info("%s | Status: %d", path, status, ...)` — note there is no
`path: ` prefix in this format string. -/
def statusLogMessage (path : String) (status : Nat) : String :=
  path ++ " | Status: " ++ toString status

/-- Message of the payload line `log_request` writes (wsgi.py:83):
`logger.info("Payload: %s", json.dumps(payload), ...)`. -/
def payloadLogMessage (payloadJson : String) : String := "Payload: " ++ payloadJson

/-- The lines one `log_request(path, status, payload)` call appends
(wsgi.py:67-85): always the path line; then, if `status` is truthy and
the path starts with `/cluster/event/`, the status line; then, if a
payload was given, the payload line. -/
def log_request_lines (asctime app_name container_id path : String)
    (status : Option Nat) (payloadJson : Option String) : List String :=
  [formatLine asctime app_name container_id (pathLogMessage path)] ++
  (match status with
   | some st =>
     if st ≠ 0 && String.isPrefixOf "/cluster/event/" path then
       [formatLine asctime app_name container_id (statusLogMessage path st)]
     else []
   | none => []) ++
  (match payloadJson with
   | some pj => [formatLine asctime app_name container_id (payloadLogMessage pj)]
   | none => [])

/-- The status-line shape the spec's consumed-line grammar prescribes
(spec section 6, second line):
`<YYYY-MM-DD HH:MM:SS> - App: <app> - Handled by: <originId> - path: <path> | Status: <int>`.
This definition follows the spec's words, for comparison with the
producer `formatLine`/`statusLogMessage` above. -/
def specStatusLine (ts app oid path : String) (st : Nat) : String :=
  ts ++ " - App: " ++ app ++ " - Handled by: " ++ oid ++ " - path: " ++ path ++
    " | Status: " ++ toString st

/-! ## The `/cluster/event/<event_type>/<collection_id>` endpoint -/

/-- Python `str.upper()` (ASCII range; these strings are ASCII). -/
def pyUpper (s : String) : String := String.mk (s.data.map Char.toUpper)

/-- HTTP method of a request to the endpoint. -/
inductive Method : Type
  | get : Method
  | post : Method
deriving DecidableEq

/-- Outcome of `request.get_json()` for a POST body: `malformed` models a
body that raises (invalid JSON / wrong content type, caught by the
`except Exception` at wsgi.py:249), `noBody` a missing body, and `json v`
a successfully parsed value. -/
inductive ReqBody : Type
  | malformed : ReqBody
  | noBody : ReqBody
  | json : PyVal → ReqBody

/-- What the endpoint returns to the caller and writes to the log. -/
structure ClusterEventResp where
  http : Nat
  loggedStatus : Option Nat
deriving DecidableEq

/-- Model of the `cluster_event` view (wsgi.py:224-254).  For GET, the
`status` computed at wsgi.py:234 goes to `log_request` only; the
response is `render_template(...)`, which Flask returns with HTTP 200.
For POST: a body that raises or is falsy returns 400; otherwise the
status rule of wsgi.py:247 is logged and `render_template` again
returns 200. -/
def cluster_event (m : Method) (event_type : String) (body : ReqBody) : ClusterEventResp :=
  match m with
  | .get =>
    { http := 200, loggedStatus := some (if pyUpper event_type == "FAIL" then 500 else 200) }
  | .post =>
    match body with
    | .malformed => { http := 400, loggedStatus := none }
    | .noBody => { http := 400, loggedStatus := none }
    | .json v =>
      if !pyTruthy v then { http := 400, loggedStatus := none }
      else
        { http := 200, loggedStatus := some (if pyUpper event_type == "FAIL" then 500 else 200) }

/-! ## Metrics aggregation endpoints (wsgi.py:256-331) -/

/-- Python `round(x, d)` as exact rational round-half-to-even on the
scaled value (floats modelled as exact rationals). -/
def pyRound (q : Rat) (d : Nat) : Rat :=
  let scaled : Rat := q * ((10 : Rat) ^ d)
  let f : Int := ⌊scaled⌋
  let r : Rat := scaled - (f : Rat)
  let n : Int :=
    if r < 1 / 2 then f
    else if r > 1 / 2 then f + 1
    else if f % 2 = 0 then f else f + 1
  (n : Rat) / ((10 : Rat) ^ d)

/-- The JSON body `/metrics` returns (wsgi.py:264-286). -/
structure MetricsOut where
  total_requests : Nat
  success_rate : Rat
  avg_cpu : Rat
  avg_memory : Rat
  avg_priority : Rat
deriving DecidableEq

/-- Model of `get_metrics` after `parse_logs` (wsgi.py:264-286): zeroed
structure on no events, otherwise rounded averages. -/
def get_metrics (events : List Event) : MetricsOut :=
  let total := events.length
  if total = 0 then
    { total_requests := 0, success_rate := 0, avg_cpu := 0, avg_memory := 0, avg_priority := 0 }
  else
    let succ := events.countP (fun e => e.status == some 200)
    let success_rate : Rat := if total > 0 then (succ : Rat) / (total : Rat) * 100 else 0
    { total_requests := total
      success_rate := pyRound success_rate 1
      avg_cpu := pyRound ((events.map Event.cpu).sum / (total : Rat)) 4
      avg_memory := pyRound ((events.map Event.memory).sum / (total : Rat)) 4
      avg_priority := pyRound (((events.map Event.priority).sum : Rat) / (total : Rat)) 1 }

/-- The six counts `/event_distribution` returns (wsgi.py:296). -/
structure EventDist where
  fail : Nat
  schedule : Nat
  finish : Nat
  enable : Nat
  evict : Nat
  lost : Nat
deriving DecidableEq

/-- The six recognised event types, in the order of the
`event_counts` dict initialiser (wsgi.py:296). -/
def knownEventTypes : List String :=
  ["FAIL", "SCHEDULE", "FINISH", "ENABLE", "EVICT", "LOST"]

/-- Model of `get_event_distribution` after `parse_logs`
(wsgi.py:296-302): counts per known type, all keys initialised to 0;
events of other types touch no counter. -/
def get_event_distribution (events : List Event) : EventDist :=
  { fail := events.countP (fun e => e.event_type == "FAIL")
    schedule := events.countP (fun e => e.event_type == "SCHEDULE")
    finish := events.countP (fun e => e.event_type == "FINISH")
    enable := events.countP (fun e => e.event_type == "ENABLE")
    evict := events.countP (fun e => e.event_type == "EVICT")
    lost := events.countP (fun e => e.event_type == "LOST") }

/-- Model of `extract_cpu_memory_usage` after `parse_logs`
(wsgi.py:173-177): the last 100 cpu and memory values (`[-100:]`). -/
def extract_cpu_memory_usage (events : List Event) : List Rat × List Rat :=
  let cpu := events.map Event.cpu
  let mem := events.map Event.memory
  (cpu.drop (cpu.length - 100), mem.drop (mem.length - 100))

/-- Model of `get_cpu_memory_usage` (wsgi.py:321-331): the two series,
with an empty series replaced by `[0]` (`cpu_usage or [0]`). -/
def get_cpu_memory_usage (events : List Event) : List Rat × List Rat :=
  let (cpu, mem) := extract_cpu_memory_usage events
  (if cpu.isEmpty then [0] else cpu, if mem.isEmpty then [0] else mem)

/-! ## The trace replayer `simulate_requests.py`

One CSV row carries the four columns read at simulate_requests.py:140.
Missing values (pandas `NaN`) are `none`.  The outbound HTTP POST is
modelled by an oracle indexed by the number of POSTs already sent:
`some n` is a response with status code `n`, `none` is a
`requests.RequestException` (transport failure or timeout). -/

/-- One row of the workload trace.  Missing cells (pandas `NaN`) are
`none`; numeric cells are modelled by their decimal text (the source
only ever passes them to `float`/`json.loads`); priorities in this
trace are integers. -/
structure TraceRow where
  event : Option String
  collection_id : Option String
  resource_request : Option String
  priority : Option Int
deriving DecidableEq

instance : Inhabited TraceRow := ⟨⟨none, none, none, none⟩⟩

/-- The per-batch cycle budget `REQUESTS_PER_CYCLE` (simulate_requests.py:14). -/
def REQUESTS_PER_CYCLE : Nat := 100

/-- The global counters of simulate_requests.py:17-19, plus the number of
POSTs issued so far (which indexes the response oracle). -/
structure SimState where
  total_rows_processed : Nat
  successful_requests : Nat
  failed_requests : Nat
  posts : Nat
deriving DecidableEq

def initSimState : SimState := ⟨0, 0, 0, 0⟩

/-- `f"{int(float(collection_id))}"` (simulate_requests.py:72): `none`
models the caught `(ValueError, TypeError)`. -/
def coerceCollectionId (s : String) : Option String :=
  (pyFloatChars s.data).map (fun q => toString (pyTrunc q))

/-- The resource parse at simulate_requests.py:80-88:
`json.loads(resource_request.replace("'", '"'))` then `.get` of `cpus`
and `memory` with default 0.  A missing field, a JSON error or a
missing/odd-typed `resource_request` (the caught `AttributeError`) all
fall back to `(0, 0)`; this never fails the row.  The values only feed
the outbound payload. -/
def parseResources (rr : Option String) : PyVal × PyVal :=
  match rr with
  | none => (.num 0, .num 0)
  | some s =>
    match jsonLoads (s.data.map (fun c => if c == '\'' then '"' else c)) with
    | some (.dict kvs) => (lookupLast kvs "cpus" (.num 0), lookupLast kvs "memory" (.num 0))
    | _ => (.num 0, .num 0)

/-- How one row was handled (simulate_requests.py:63-124): skipped for a
missing field, skipped for an uncoercible collection id, or POSTed with
the oracle's response. -/
inductive RowOutcome : Type
  | skippedMissing : RowOutcome
  | skippedBadId : RowOutcome
  | posted : Option Nat → RowOutcome
deriving DecidableEq

/-- Whether the outcome was an actual POST (only these count against the
cycle budget, simulate_requests.py:128). -/
def isPost : RowOutcome → Bool
  | .posted _ => true
  | _ => false

/-- Classify one row given the current state (the POST consults the
oracle at the current POST index). -/
def rowOutcome (oracle : Nat → Option Nat) (st : SimState) (row : TraceRow) : RowOutcome :=
  match row.event, row.collection_id with
  | none, _ => .skippedMissing
  | _, none => .skippedMissing
  | some _, some cid =>
    match coerceCollectionId cid with
    | none => .skippedBadId
    | some _ => .posted (oracle st.posts)

/-- Counter updates for one handled row (simulate_requests.py:56,66,75,
117-124): `total_rows_processed` always increments; a skip or a failed /
non-200 POST increments `failed_requests`; a 200 response increments
`successful_requests`. -/
def applyOutcome (st : SimState) (o : RowOutcome) : SimState :=
  match o with
  | .skippedMissing =>
    { st with total_rows_processed := st.total_rows_processed + 1
              failed_requests := st.failed_requests + 1 }
  | .skippedBadId =>
    { st with total_rows_processed := st.total_rows_processed + 1
              failed_requests := st.failed_requests + 1 }
  | .posted none =>
    { st with total_rows_processed := st.total_rows_processed + 1
              failed_requests := st.failed_requests + 1
              posts := st.posts + 1 }
  | .posted (some code) =>
    if code == 200 then
      { st with total_rows_processed := st.total_rows_processed + 1
                successful_requests := st.successful_requests + 1
                posts := st.posts + 1 }
    else
      { st with total_rows_processed := st.total_rows_processed + 1
                failed_requests := st.failed_requests + 1
                posts := st.posts + 1 }

/-- One dispatched (or skipped) row, as recorded for the proofs: the
bucket priority, the row itself, the payload resources it would carry,
and how it ended. -/
structure DispatchRec where
  priority : Int
  row : TraceRow
  result : RowOutcome
deriving DecidableEq

/-- `group_by_priority` (simulate_requests.py:21-33): rows are bucketed
by priority (missing priority defaults to 0, simulate_requests.py:27)
and the buckets are ordered by descending priority.  The source builds
an insertion-ordered dict and then applies `sorted(..., reverse=True)`;
since the keys are distinct, the descending-ordered association list
built here by sorted insertion is exactly that result, with each
bucket keeping its rows in arrival order. -/
def insertGrouped (p : Int) (row : TraceRow) :
    List (Int × List TraceRow) → List (Int × List TraceRow)
  | [] => [(p, [row])]
  | (q, rs) :: t =>
    if p > q then (p, [row]) :: (q, rs) :: t
    else if p = q then (q, rs ++ [row]) :: t
    else (q, rs) :: insertGrouped p row t

def group_by_priority (rows : List TraceRow) : List (Int × List TraceRow) :=
  rows.foldl (fun acc r => insertGrouped (r.priority.getD 0) r acc) []

/-- The `any(current_indices[priority] < len(traces) ...)` test of the
`while` condition (simulate_requests.py:49). -/
def anyRemaining (gs : List (Int × List TraceRow)) (cs : List Nat) : Bool :=
  (gs.zip cs).any (fun gc => gc.2 < gc.1.2.length)

/-- One pass of the inner `for priority, traces in priority_groups` loop
(simulate_requests.py:50-135): visit buckets in order; an exhausted
bucket is skipped; otherwise handle its cursor row — a validation or
coercion failure advances the cursor and `continue`s (no budget charge);
a POST advances the cursor, charges the budget and `break`s out of the
round when the budget is reached.  Returns the updated cursors, cycle
counter, state, and the rows handled this round in order. -/
def roundPass (oracle : Nat → Option Nat) :
    List (Int × List TraceRow) → List Nat → Nat → SimState →
    List Nat × Nat × SimState × List DispatchRec
  | [], _, cycle, st => ([], cycle, st, [])
  | _ :: _, [], cycle, st => ([], cycle, st, [])
  | (p, rows) :: gs, c :: cs, cycle, st =>
    if c < rows.length then
      let row := rows.getD c default
      let o := rowOutcome oracle st row
      let st2 := applyOutcome st o
      let rec1 : DispatchRec := ⟨p, row, o⟩
      if isPost o then
        let cycle2 := cycle + 1
        if REQUESTS_PER_CYCLE ≤ cycle2 then
          ((c + 1) :: cs, cycle2, st2, [rec1])
        else
          let (cs2, cyc3, st3, recs) := roundPass oracle gs cs cycle2 st2
          ((c + 1) :: cs2, cyc3, st3, rec1 :: recs)
      else
        let (cs2, cyc3, st3, recs) := roundPass oracle gs cs cycle st2
        ((c + 1) :: cs2, cyc3, st3, rec1 :: recs)
    else
      let (cs2, cyc3, st3, recs) := roundPass oracle gs cs cycle st
      (c :: cs2, cyc3, st3, recs)

/-- The `while cycle_requests < REQUESTS_PER_CYCLE and any(...)` loop
(simulate_requests.py:48-135), producing the list of rounds.  `fuel`
bounds the iterations; every entered round advances at least one
cursor, so `rows.length + 1` fuel is always enough. -/
def dispatchRounds (oracle : Nat → Option Nat) (gs : List (Int × List TraceRow)) :
    Nat → List Nat → Nat → SimState → SimState × List (List DispatchRec)
  | 0, _, _, st => (st, [])
  | fuel + 1, cs, cycle, st =>
    if cycle < REQUESTS_PER_CYCLE && anyRemaining gs cs then
      let (cs2, cyc2, st2, recs) := roundPass oracle gs cs cycle st
      let (stF, rounds) := dispatchRounds oracle gs fuel cs2 cyc2 st2
      (stF, recs :: rounds)
    else (st, [])

/-- Model of `process_chunk` (simulate_requests.py:35-135): group the
chunk's rows by priority and run the budgeted round-robin loop from a
zero cycle counter and zero cursors. -/
def process_chunk (oracle : Nat → Option Nat) (rows : List TraceRow) (st : SimState) :
    SimState × List (List DispatchRec) :=
  let gs := group_by_priority rows
  dispatchRounds oracle gs (rows.length + 1) (gs.map (fun _ => 0)) 0 st

/-- Model of the main chunk loop (simulate_requests.py:149-152): each
chunk is processed in sequence against the shared counters; the local
grouping and cursors of a chunk are discarded when it returns. -/
def runBatches (oracle : Nat → Option Nat) (chunks : List (List TraceRow)) (st : SimState) :
    SimState × List (List (List DispatchRec)) :=
  match chunks with
  | [] => (st, [])
  | ch :: rest =>
    let (st2, rounds) := process_chunk oracle ch st
    let (stF, later) := runBatches oracle rest st2
    (stF, rounds :: later)

/-- All rows handled by a run of `process_chunk`, flattened in order. -/
def flatRecs (rounds : List (List DispatchRec)) : List DispatchRec := rounds.flatten

/-- All rows handled across batches, flattened in order. -/
def flatAll (l : List (List (List DispatchRec))) : List DispatchRec :=
  (l.map flatRecs).flatten

/-- Number of budget-charged dispatches (actual POSTs) in a record list. -/
def countPosts (recs : List DispatchRec) : Nat :=
  recs.countP (fun r => isPost r.result)

/-- All rows held in a bucket list. -/
def rowsOf (gs : List (Int × List TraceRow)) : List TraceRow :=
  (gs.map Prod.snd).flatten

/-- The counter invariant of the replayer. -/
def simInv (st : SimState) : Prop :=
  st.total_rows_processed = st.successful_requests + st.failed_requests

example :
    (process_chunk (fun _ => some 200)
        [⟨some "a", some "1", none, some 5⟩, ⟨some "a", some "2", none, some 5⟩,
         ⟨some "a", some "3", none, some 5⟩, ⟨some "a", some "4", none, some 5⟩,
         ⟨some "a", some "5", none, some 1⟩, ⟨some "a", some "6", none, some 1⟩]
        initSimState).2.map (fun r => r.map DispatchRec.priority) =
      [[5, 1], [5, 1], [5], [5]] := by
  with_unfolding_all rfl

example :
    (process_chunk (fun _ => some 200)
        [⟨some "a", some "1", none, some 5⟩, ⟨none, some "2", none, none⟩,
         ⟨some "a", some "bad", none, some 1⟩]
        initSimState).1 = ⟨3, 1, 2, 1⟩ := by
  with_unfolding_all rfl

/-! ## Claims -/

/-- C1 counterexample: a GET request with eventType `FAIL` receives HTTP
200, not the 500 the claim asserts — `cluster_event` computes the 500
only for the log line and then returns `render_template`, which Flask
serves with status 200. -/
theorem c1_counterexample_get_fail_http_200 :
    (cluster_event .get "FAIL" .noBody).http = 200 ∧ (200 : Nat) ≠ 500 :=
  ⟨rfl, by decide⟩

/-- C1 (amended): every accepted request — GET, or POST with a truthy
JSON body — returns HTTP 200, even when eventType case-insensitively
equals FAIL; the synthetic 500 appears only as the logged status.  A
POST with a malformed, missing or falsy body returns 400. -/
theorem c1_amended_response_statuses (et : String) (body : ReqBody) :
    (cluster_event .get et body).http = 200
    ∧ (pyUpper et = "FAIL" → (cluster_event .get et body).loggedStatus = some 500)
    ∧ (pyUpper et ≠ "FAIL" → (cluster_event .get et body).loggedStatus = some 200)
    ∧ (cluster_event .post et .malformed).http = 400
    ∧ (cluster_event .post et .noBody).http = 400
    ∧ (∀ v : PyVal, pyTruthy v = true →
        (cluster_event .post et (.json v)).http = 200
        ∧ (cluster_event .post et (.json v)).loggedStatus =
            some (if pyUpper et == "FAIL" then 500 else 200))
    ∧ (∀ v : PyVal, pyTruthy v = false → (cluster_event .post et (.json v)).http = 400) := by
  refine ⟨rfl, ?_, ?_, rfl, rfl, ?_, ?_⟩
  · intro h
    simp [cluster_event, h]
  · intro h
    simp [cluster_event, h]
  · intro v hv
    simp [cluster_event, hv]
  · intro v hv
    simp [cluster_event, hv]

/-- C1 witness: the amended statement applied at eventType `"fail"` and a
truthy POST body. -/
theorem c1_amended_response_statuses_witness :
    (cluster_event .get "fail" .noBody).loggedStatus = some 500
    ∧ (cluster_event .post "fail" (.json (.dict [("cpus", .num 1)]))).http = 200 := by
  refine ⟨?_, ?_⟩
  · exact (c1_amended_response_statuses "fail" .noBody).2.1 (by with_unfolding_all rfl)
  · exact ((c1_amended_response_statuses "fail" .noBody).2.2.2.2.2.1
      (.dict [("cpus", .num 1)]) (by with_unfolding_all rfl)).1

/-- C2 counterexample: a log line for `/cluster/event/submit/123`
produces an Event with eventType `SUBMIT`, which is outside the six
enumerated values — `parse_logs` uppercases the path segment without
restricting it. -/
theorem c2_counterexample_submit_event :
    parse_logs none
      ["2024-01-01 00:00:00 - App: app1 - Handled by: c1 - path: /cluster/event/submit/123"] =
      some [⟨"2024-01-01 00:00:00", "c1", "SUBMIT", "123", 0, 0, none, 0⟩]
    ∧ "SUBMIT" ∉ knownEventTypes := by
  refine ⟨by with_unfolding_all rfl, by decide⟩

/-- C2 (amended): an Event's eventType is the uppercased first path
segment, whatever string that is (not restricted to the six enumerated
values); a primary line whose path does not decompose as
`/cluster/event/<seg>/<rest>` produces no Event (dropped, not
defaulted). -/
theorem c2_amended_event_type (ids : Option (List String)) (lines : List String) (i : Nat)
    (gm : GenMatch) (hg : generalMatch (lineData lines i) = some gm) :
    (pathDecomp gm.path = none → parseAt ids lines i = some none)
    ∧ (∀ seg coll e, pathDecomp gm.path = some (seg, coll) →
        parseAt ids lines i = some (some e) →
        e.event_type = String.mk (seg.map Char.toUpper)
        ∧ e.collection_id = String.mk coll) := by
  constructor
  · intro hp
    by_cases hx : excludedBy ids (String.mk gm.container_id)
    · simp [parseAt, hg, hx]
    · simp [parseAt, hg, hx, hp]
  · intro seg coll e hp he
    by_cases hx : excludedBy ids (String.mk gm.container_id)
    · simp [parseAt, hg, hx] at he
    · rcases hcm : resolveCM lines i gm with _ | ⟨c, m⟩ <;>
        simp [parseAt, hg, hx, hp, hcm] at he
      rcases he with ⟨rfl⟩ | h
      · exact ⟨rfl, rfl⟩

/-- C2 witness: the amended statement applied to the concrete
`/cluster/event/submit/123` line. -/
theorem c2_amended_event_type_witness :
    Event.event_type ⟨"2024-01-01 00:00:00", "c1", "SUBMIT", "123", 0, 0, none, 0⟩ =
      String.mk ("submit".data.map Char.toUpper) :=
  ((c2_amended_event_type none
      ["2024-01-01 00:00:00 - App: app1 - Handled by: c1 - path: /cluster/event/submit/123"]
      0
      ⟨"2024-01-01 00:00:00".data, "c1".data, "/cluster/event/submit/123".data, []⟩
      (by with_unfolding_all rfl)).2
    "submit".data "123".data
    ⟨"2024-01-01 00:00:00", "c1", "SUBMIT", "123", 0, 0, none, 0⟩
    (by with_unfolding_all rfl) (by with_unfolding_all rfl)).1

/-- C4: the status line `log_request` actually writes
(`logger.info("%s | Status: %d", path, status)` through the configured
formatter) does not carry the `path: ` prefix the spec's consumed-line
shape prescribes, so the correlator's status regex can never match it,
while the spec-shaped line for the same data does match and yields the
status. -/
theorem c4_status_line_missing_path_marker :
    formatLine "2024-01-01 00:00:00" "app1" "c1" (statusLogMessage "/cluster/event/fail/1" 500) =
      "2024-01-01 00:00:00 - App: app1 - Handled by: c1 - /cluster/event/fail/1 | Status: 500"
    ∧ containsSub "path: /cluster/event/fail/1".data
        (formatLine "2024-01-01 00:00:00" "app1" "c1"
          (statusLogMessage "/cluster/event/fail/1" 500)).data = false
    ∧ statusLineMatch "/cluster/event/fail/1".data
        (formatLine "2024-01-01 00:00:00" "app1" "c1"
          (statusLogMessage "/cluster/event/fail/1" 500)).data = none
    ∧ specStatusLine "2024-01-01 00:00:00" "app1" "c1" "/cluster/event/fail/1" 500 =
      "2024-01-01 00:00:00 - App: app1 - Handled by: c1 - path: /cluster/event/fail/1 | Status: 500"
    ∧ statusLineMatch "/cluster/event/fail/1".data
        (specStatusLine "2024-01-01 00:00:00" "app1" "c1" "/cluster/event/fail/1" 500).data =
      some 500 := by
  refine ⟨by with_unfolding_all rfl, by with_unfolding_all rfl, by with_unfolding_all rfl,
    by with_unfolding_all rfl, by with_unfolding_all rfl⟩

/-- C5 counterexample: for a payload whose `memory` field is well-formed
(`2.5`) but whose `cpus` field is malformed (`"bad"`), the emitted Event
has BOTH `cpu = 0` and `memory = 0`: the single `try` block aborts at
the `cpus` `float()` before `memory` is ever parsed, so the fields are
not resolved independently as the claim states. -/
theorem c5_counterexample_memory_discarded :
    parse_logs none
      ["2024-01-01 00:00:00 - App: app1 - Handled by: c1 - path: /cluster/event/schedule/7",
       "2024-01-01 00:00:01 - App: app1 - Handled by: c1 - Payload: \x7b\"cpus\": \"bad\", \"memory\": 2.5\x7d"] =
      some [⟨"2024-01-01 00:00:00", "c1", "SCHEDULE", "7", 0, 0, none, 0⟩]
    ∧ jsonLoads "\x7b\"cpus\": \"bad\", \"memory\": 2.5\x7d".data =
        some (.dict [("cpus", .str "bad"), ("memory", .num (5 / 2))])
    ∧ pyFloat (.num (5 / 2)) = .ok (5 / 2)
    ∧ (5 / 2 : Rat) ≠ 0 := by
  refine ⟨by with_unfolding_all rfl, by with_unfolding_all rfl, by with_unfolding_all rfl,
    by with_unfolding_all decide⟩

/-- C5 (amended): the payload fields are resolved sequentially, `cpus`
first: when both `float` calls succeed the parsed values are taken; when
`cpus` succeeds and `memory` raises `ValueError`, the parsed `cpu` is
kept and `memory` stays 0 with a warning; when `cpus` raises
`ValueError`, BOTH stay 0 with a warning — a well-formed `memory` is
discarded — and in all caught cases the event is still emitted. -/
theorem c5_amended_sequential_resolution (kvs : List (String × PyVal)) (s : List Char)
    (hj : jsonLoads s = some (.dict kvs)) :
    (∀ c m, pyFloat (lookupLast kvs "cpus" (.num 0)) = .ok c →
        pyFloat (lookupLast kvs "memory" (.num 0)) = .ok m →
        resolvePayload s = some (c, m, false))
    ∧ (∀ c, pyFloat (lookupLast kvs "cpus" (.num 0)) = .ok c →
        pyFloat (lookupLast kvs "memory" (.num 0)) = .valueErr →
        resolvePayload s = some (c, 0, true))
    ∧ (pyFloat (lookupLast kvs "cpus" (.num 0)) = .valueErr →
        resolvePayload s = some (0, 0, true)) := by
  refine ⟨?_, ?_, ?_⟩
  · intro c m hc hm
    simp [resolvePayload, hj, hc, hm]
  · intro c hc hm
    simp [resolvePayload, hj, hc, hm]
  · intro hc
    simp [resolvePayload, hj, hc]

/-- C5 witness: the amended statement applied to the payload
`\x7b"cpus": 2.5, "memory": "bad"\x7d` — the earlier field keeps its value,
the later malformed one defaults. -/
theorem c5_amended_sequential_resolution_witness :
    resolvePayload "\x7b\"cpus\": 2.5, \"memory\": \"bad\"\x7d".data = some (5 / 2, 0, true) :=
  (c5_amended_sequential_resolution [("cpus", .num (5 / 2)), ("memory", .str "bad")]
      "\x7b\"cpus\": 2.5, \"memory\": \"bad\"\x7d".data (by with_unfolding_all rfl)).2.1
    (5 / 2) (by with_unfolding_all rfl) (by with_unfolding_all rfl)

/-- C8: on the empty event sequence the aggregation endpoints return the
well-formed zero state: zero totals and success rate, all six event-type
counts 0, and singleton `[0]` cpu and memory series; and an empty log
yields exactly that empty event sequence rather than an error. -/
theorem c8_empty_aggregation_zero_state :
    get_metrics [] = ⟨0, 0, 0, 0, 0⟩
    ∧ get_event_distribution [] = ⟨0, 0, 0, 0, 0, 0⟩
    ∧ get_cpu_memory_usage [] = ([0], [0])
    ∧ parse_logs none [] = some [] := by
  refine ⟨by with_unfolding_all rfl, by with_unfolding_all rfl, by with_unfolding_all rfl, rfl⟩

/-- The filter test treats an empty id list exactly like `None`
(an empty Python list is falsy). -/
theorem excludedBy_nil (cid : String) : excludedBy (some []) cid = excludedBy none cid := rfl

/-- `parseAt` cannot distinguish the empty filter from no filter. -/
theorem parseAt_nil_filter (lines : List String) (i : Nat) :
    parseAt (some []) lines i = parseAt none lines i := by
  unfold parseAt
  simp only [excludedBy_nil]

/-- The scan loop cannot distinguish the empty filter from no filter. -/
theorem parseLogsAux_nil_filter (lines : List String) :
    ∀ n i, parseLogsAux (some []) lines i n = parseLogsAux none lines i n
  | 0, _ => rfl
  | n + 1, i => by
    unfold parseLogsAux
    rw [parseAt_nil_filter]
    rcases parseAt none lines i with _ | (_ | e)
    · rfl
    · exact parseLogsAux_nil_filter lines n (i + 1)
    · rw [parseLogsAux_nil_filter lines n (i + 1)]

/-- C9: running the correlator with an empty origin-filter collection
returns exactly the same events as running it with no filter (`None`):
the truthiness test `if container_ids and ...` treats an empty list as
"no filter", so a metrics query naming a server group with no known
container ids aggregates over all origins. -/
theorem c9_empty_filter_is_no_filter (lines : List String) :
    parse_logs (some []) lines = parse_logs none lines :=
  parseLogsAux_nil_filter lines lines.length 0

/-- Each handled row preserves the invariant. -/
theorem applyOutcome_inv (st : SimState) (o : RowOutcome) (h : simInv st) :
    simInv (applyOutcome st o) := by
  rcases o with _ | _ | (_ | code)
  · simp [simInv, applyOutcome] at h ⊢; omega
  · simp [simInv, applyOutcome] at h ⊢; omega
  · simp [simInv, applyOutcome] at h ⊢; omega
  · by_cases hc : code == 200 <;> simp [simInv, applyOutcome, hc] at h ⊢ <;> omega

/-- One round preserves the invariant. -/
theorem roundPass_inv (oracle : Nat → Option Nat) :
    ∀ (gs : List (Int × List TraceRow)) (cs : List Nat) (cycle : Nat) (st : SimState),
      simInv st → simInv (roundPass oracle gs cs cycle st).2.2.1
  | [], _, _, st, h => h
  | _ :: _, [], _, st, h => h
  | (p, rows) :: gs, c :: cs, cycle, st, h => by
    unfold roundPass
    by_cases hc : c < rows.length
    · simp only [hc, if_true]
      have h2 := applyOutcome_inv st (rowOutcome oracle st (rows.getD c default)) h
      by_cases hp : isPost (rowOutcome oracle st (rows.getD c default))
      · simp only [hp, if_true]
        by_cases hb : REQUESTS_PER_CYCLE ≤ cycle + 1
        · simp only [hb, if_true]
          exact h2
        · simp only [hb, if_false]
          exact roundPass_inv oracle gs cs (cycle + 1) _ h2
      · simp only [hp, if_false]
        exact roundPass_inv oracle gs cs cycle _ h2
    · simp only [hc, if_false]
      exact roundPass_inv oracle gs cs cycle st h

/-- The whole while-loop preserves the invariant. -/
theorem dispatchRounds_inv (oracle : Nat → Option Nat) (gs : List (Int × List TraceRow)) :
    ∀ (fuel : Nat) (cs : List Nat) (cycle : Nat) (st : SimState),
      simInv st → simInv (dispatchRounds oracle gs fuel cs cycle st).1
  | 0, _, _, _, h => h
  | fuel + 1, cs, cycle, st, h => by
    unfold dispatchRounds
    by_cases hw : cycle < REQUESTS_PER_CYCLE && anyRemaining gs cs
    · simp only [hw, if_true]
      exact dispatchRounds_inv oracle gs fuel _ _ _ (roundPass_inv oracle gs cs cycle st h)
    · simp only [hw, if_false]
      exact h

/-- `process_chunk` preserves the invariant. -/
theorem process_chunk_inv (oracle : Nat → Option Nat) (rows : List TraceRow) (st : SimState)
    (h : simInv st) : simInv (process_chunk oracle rows st).1 :=
  dispatchRounds_inv oracle _ _ _ _ _ h

/-- The chunk loop preserves the invariant. -/
theorem runBatches_inv (oracle : Nat → Option Nat) :
    ∀ (chunks : List (List TraceRow)) (st : SimState),
      simInv st → simInv (runBatches oracle chunks st).1
  | [], _, h => h
  | ch :: rest, st, h =>
    runBatches_inv oracle rest _ (process_chunk_inv oracle ch st h)

/-- C10: after any run of the replayer from the zero counters,
`total_rows_processed = successful_requests + failed_requests`; and each
handled row increments the total by exactly 1 and exactly one of the
success or failure counters by exactly 1 (skips for missing fields or an
uncoercible collection id, transport failures, and non-200 responses
all count as failed; only a 200 response counts as successful). -/
theorem c10_counters_partition (oracle : Nat → Option Nat) (chunks : List (List TraceRow))
    (st : SimState) (row : TraceRow) :
    ((runBatches oracle chunks initSimState).1.total_rows_processed =
      (runBatches oracle chunks initSimState).1.successful_requests +
        (runBatches oracle chunks initSimState).1.failed_requests)
    ∧ ((applyOutcome st (rowOutcome oracle st row)).total_rows_processed =
        st.total_rows_processed + 1)
    ∧ (((applyOutcome st (rowOutcome oracle st row)).successful_requests =
          st.successful_requests + 1
        ∧ (applyOutcome st (rowOutcome oracle st row)).failed_requests = st.failed_requests)
      ∨ ((applyOutcome st (rowOutcome oracle st row)).successful_requests =
          st.successful_requests
        ∧ (applyOutcome st (rowOutcome oracle st row)).failed_requests =
            st.failed_requests + 1)) := by
  refine ⟨runBatches_inv oracle chunks initSimState rfl, ?_, ?_⟩
  · rcases h : rowOutcome oracle st row with _ | _ | (_ | code)
    · simp [applyOutcome]
    · simp [applyOutcome]
    · simp [applyOutcome]
    · by_cases hc : code == 200 <;> simp [applyOutcome, hc]
  · rcases h : rowOutcome oracle st row with _ | _ | (_ | code)
    · right; simp [applyOutcome]
    · right; simp [applyOutcome]
    · right; simp [applyOutcome]
    · by_cases hc : code == 200
      · left; simp [applyOutcome, hc]
      · right; simp [applyOutcome, hc]

/-- The status matcher never matches the (empty) content of an
out-of-range line. -/
theorem statusLineMatch_nil (target : List Char) : statusLineMatch target [] = none := by
  simp [statusLineMatch, findSub]

/-- If every line the scan would visit fails the status regex, the scan
yields `none`. -/
theorem statusScanFrom_none (target : List Char) (lines : List String) :
    ∀ (k s : Nat),
      (∀ j, s ≤ j → j < s + k → statusLineMatch target (lineData lines j) = none) →
      statusScanFrom target lines s k = none
  | 0, _, _ => rfl
  | k + 1, s, h => by
    unfold statusScanFrom
    rw [h s (Nat.le_refl s) (by omega)]
    exact statusScanFrom_none target lines k (s + 1) (fun j h1 h2 => h j (by omega) (by omega))

/-- The first line the scan visits that matches the status regex
determines the result. -/
theorem statusScanFrom_first (target : List Char) (lines : List String) :
    ∀ (k s j v : Nat), s ≤ j → j < s + k →
      statusLineMatch target (lineData lines j) = some v →
      (∀ m, s ≤ m → m < j → statusLineMatch target (lineData lines m) = none) →
      statusScanFrom target lines s k = some v
  | 0, s, j, _, h1, h2, _, _ => by omega
  | k + 1, s, j, v, h1, h2, hm, hearlier => by
    unfold statusScanFrom
    rcases Nat.eq_or_lt_of_le h1 with rfl | hlt
    · rw [hm]
    · rw [hearlier s (Nat.le_refl s) hlt]
      exact statusScanFrom_first target lines k (s + 1) j v (by omega) (by omega) hm
        (fun m hm1 hm2 => hearlier m (by omega) hm2)

/-- A successfully emitted event carries exactly the status the window
scan computes. -/
theorem parseAt_status (ids : Option (List String)) (lines : List String) (i : Nat)
    (gm : GenMatch) (e : Event)
    (hg : generalMatch (lineData lines i) = some gm)
    (he : parseAt ids lines i = some (some e)) :
    e.status = statusScanFrom (gm.path ++ gm.query) lines (i + 1) (lookaheadLen lines.length i) := by
  by_cases hx : excludedBy ids (String.mk gm.container_id)
  · simp [parseAt, hg, hx] at he
  · rcases hp : pathDecomp gm.path with _ | ⟨seg, coll⟩
    · simp [parseAt, hg, hx, hp] at he
    · rcases hcm : resolveCM lines i gm with _ | ⟨c, m⟩ <;>
        simp [parseAt, hg, hx, hp, hcm] at he
      rcases he with ⟨rfl⟩
      rfl

/-- C3: for every emitted event, the correlator resolves `status` by
scanning only the 3 records after the primary line: if none of the
records at indices `i+1 .. i+3` matches the status regex for the
primary's exact path+query, the status is `None` — no default value —
regardless of any matching line further away; and the first matching
record within that window determines the status. -/
theorem c3_status_window (ids : Option (List String)) (lines : List String) (i : Nat)
    (gm : GenMatch) (e : Event)
    (hg : generalMatch (lineData lines i) = some gm)
    (he : parseAt ids lines i = some (some e)) :
    ((∀ j, i < j → j ≤ i + 3 →
        statusLineMatch (gm.path ++ gm.query) (lineData lines j) = none) →
      e.status = none)
    ∧ (∀ j v, i < j → j ≤ i + 3 →
        statusLineMatch (gm.path ++ gm.query) (lineData lines j) = some v →
        (∀ k, i < k → k < j → statusLineMatch (gm.path ++ gm.query) (lineData lines k) = none) →
        e.status = some v) := by
  rw [parseAt_status ids lines i gm e hg he]
  constructor
  · intro hnone
    refine statusScanFrom_none _ lines (lookaheadLen lines.length i) (i + 1) ?_
    intro j h1 h2
    refine hnone j (by omega) ?_
    have : lookaheadLen lines.length i ≤ 3 := by
      simp only [lookaheadLen]
      omega
    omega
  · intro j v h1 h2 hm hearlier
    have hjlen : j < lines.length := by
      by_contra hge
      rw [show lineData lines j = [] from ?_] at hm
      · rw [statusLineMatch_nil] at hm
        exact Option.noConfusion hm
      · simp only [lineData]
        rw [List.getD_eq_default]
        omega
    refine statusScanFrom_first _ lines (lookaheadLen lines.length i) (i + 1) j v
      (by omega) ?_ hm ?_
    · simp only [lookaheadLen]
      omega
    · intro m hm1 hm2
      exact hearlier m (by omega) hm2

/-- C3 witness: a primary line whose only status line sits 4 records
later (outside the window) resolves to `status = None`. -/
theorem c3_status_window_witness :
    Event.status ⟨"2024-01-01 00:00:00", "c1", "FAIL", "1", 0, 0, none, 0⟩ = none := by
  refine (c3_status_window none
      ["2024-01-01 00:00:00 - App: app1 - Handled by: c1 - path: /cluster/event/fail/1",
       "x", "x", "x",
       "x path: /cluster/event/fail/1 | Status: 500"]
      0
      ⟨"2024-01-01 00:00:00".data, "c1".data, "/cluster/event/fail/1".data, []⟩
      ⟨"2024-01-01 00:00:00", "c1", "FAIL", "1", 0, 0, none, 0⟩
      (by with_unfolding_all rfl) (by with_unfolding_all rfl)).1 ?_
  intro j h1 h2
  interval_cases j <;> with_unfolding_all rfl

/-- A round charges the budget once per POST, and never drives the cycle
counter past the budget when it starts below it. -/
theorem roundPass_cycle (oracle : Nat → Option Nat) :
    ∀ (gs : List (Int × List TraceRow)) (cs : List Nat) (cycle : Nat) (st : SimState),
      (roundPass oracle gs cs cycle st).2.1 =
        cycle + countPosts (roundPass oracle gs cs cycle st).2.2.2
      ∧ (cycle < REQUESTS_PER_CYCLE → (roundPass oracle gs cs cycle st).2.1 ≤ REQUESTS_PER_CYCLE)
  | [], _, cycle, st => by
    refine ⟨by simp [roundPass, countPosts], fun h => by simp [roundPass]; omega⟩
  | _ :: _, [], cycle, st => by
    refine ⟨by simp [roundPass, countPosts], fun h => by simp [roundPass]; omega⟩
  | (p, rows) :: gs, c :: cs, cycle, st => by
    by_cases hc : c < rows.length
    · by_cases hp : isPost (rowOutcome oracle st (rows.getD c default))
      · by_cases hb : REQUESTS_PER_CYCLE ≤ cycle + 1
        · simp only [roundPass]
          rw [if_pos hc, if_pos hp, if_pos hb]
          constructor
          · show cycle + 1 = cycle + countPosts [⟨p, _, _⟩]
            simp only [countPosts, List.countP_cons, List.countP_nil, hp, if_true]
          · intro h
            show cycle + 1 ≤ REQUESTS_PER_CYCLE
            omega
        · obtain ⟨ih1, ih2⟩ := roundPass_cycle oracle gs cs (cycle + 1)
            (applyOutcome st (rowOutcome oracle st (rows.getD c default)))
          rcases hr : roundPass oracle gs cs (cycle + 1)
              (applyOutcome st (rowOutcome oracle st (rows.getD c default))) with
            ⟨cs2, cyc3, st3, recs⟩
          rw [hr] at ih1 ih2
          have h3 : cyc3 ≤ REQUESTS_PER_CYCLE := ih2 (by omega)
          simp only [roundPass]
          rw [if_pos hc, if_pos hp, if_neg hb, hr]
          simp only [countPosts] at ih1
          constructor
          · show cyc3 = cycle + countPosts (⟨p, _, _⟩ :: recs)
            simp only [countPosts, List.countP_cons, hp, if_true]
            omega
          · intro h
            show cyc3 ≤ REQUESTS_PER_CYCLE
            omega
      · obtain ⟨ih1, ih2⟩ := roundPass_cycle oracle gs cs cycle
          (applyOutcome st (rowOutcome oracle st (rows.getD c default)))
        rcases hr : roundPass oracle gs cs cycle
            (applyOutcome st (rowOutcome oracle st (rows.getD c default))) with
          ⟨cs2, cyc3, st3, recs⟩
        rw [hr] at ih1 ih2
        simp only [roundPass]
        rw [if_pos hc, if_neg hp, hr]
        simp only [countPosts] at ih1
        constructor
        · show cyc3 = cycle + countPosts (⟨p, _, _⟩ :: recs)
          simp only [countPosts, List.countP_cons]
          rw [if_neg hp]
          omega
        · intro h
          show cyc3 ≤ REQUESTS_PER_CYCLE
          exact ih2 h
    · obtain ⟨ih1, ih2⟩ := roundPass_cycle oracle gs cs cycle st
      rcases hr : roundPass oracle gs cs cycle st with ⟨cs2, cyc3, st3, recs⟩
      simp only [roundPass]
      rw [if_neg hc, hr]
      rw [hr] at ih1 ih2
      exact ⟨ih1, ih2⟩

/-- Across the whole while-loop, POSTs never exceed the remaining budget. -/
theorem dispatchRounds_posts (oracle : Nat → Option Nat) (gs : List (Int × List TraceRow)) :
    ∀ (fuel : Nat) (cs : List Nat) (cycle : Nat) (st : SimState),
      cycle ≤ REQUESTS_PER_CYCLE →
      countPosts (flatRecs (dispatchRounds oracle gs fuel cs cycle st).2) + cycle ≤
        REQUESTS_PER_CYCLE
  | 0, cs, cycle, st, h => by
    simp [dispatchRounds, flatRecs, countPosts]
    omega
  | fuel + 1, cs, cycle, st, h => by
    unfold dispatchRounds
    by_cases hw : (decide (cycle < REQUESTS_PER_CYCLE) && anyRemaining gs cs) = true
    · rw [if_pos hw]
      obtain ⟨hcyc, hbound⟩ := roundPass_cycle oracle gs cs cycle st
      rcases hr : roundPass oracle gs cs cycle st with ⟨cs2, cyc2, st2, recs⟩
      rw [hr] at hcyc hbound
      simp only [countPosts] at hcyc
      rw [Bool.and_eq_true] at hw
      have hlt : cycle < REQUESTS_PER_CYCLE := of_decide_eq_true hw.1
      have h2 : cyc2 ≤ REQUESTS_PER_CYCLE := hbound hlt
      have ih := dispatchRounds_posts oracle gs fuel cs2 cyc2 st2 h2
      rcases hd : dispatchRounds oracle gs fuel cs2 cyc2 st2 with ⟨stF, rounds⟩
      rw [hd] at ih
      simp only [hd, flatRecs, List.flatten_cons, countPosts, List.countP_append] at ih ⊢
      omega
    · rw [if_neg hw]
      simp [flatRecs, countPosts]
      omega

/-- Every row a round handles comes from the bucket list. -/
theorem roundPass_rows (oracle : Nat → Option Nat) :
    ∀ (gs : List (Int × List TraceRow)) (cs : List Nat) (cycle : Nat) (st : SimState)
      (rec : DispatchRec), rec ∈ (roundPass oracle gs cs cycle st).2.2.2 → rec.row ∈ rowsOf gs
  | [], _, cycle, st, rec => by simp [roundPass]
  | _ :: _, [], cycle, st, rec => by simp [roundPass]
  | (p, rows) :: gs, c :: cs, cycle, st, rec => by
    intro hmem
    have hrowmem : c < rows.length → rows.getD c default ∈ rows := fun hlt => by
      rw [List.getD_eq_getElem rows default hlt]
      exact List.getElem_mem hlt
    by_cases hc : c < rows.length
    · by_cases hp : isPost (rowOutcome oracle st (rows.getD c default))
      · by_cases hb : REQUESTS_PER_CYCLE ≤ cycle + 1
        · simp only [roundPass] at hmem
          rw [if_pos hc, if_pos hp, if_pos hb] at hmem
          simp only [List.mem_singleton] at hmem
          subst hmem
          simp only [rowsOf, List.map_cons, List.flatten_cons]
          exact List.mem_append_left _ (hrowmem hc)
        · rcases hr : roundPass oracle gs cs (cycle + 1)
              (applyOutcome st (rowOutcome oracle st (rows.getD c default))) with
            ⟨cs2, cyc3, st3, recs⟩
          simp only [roundPass] at hmem
          rw [if_pos hc, if_pos hp, if_neg hb, hr] at hmem
          simp only [List.mem_cons] at hmem
          simp only [rowsOf, List.map_cons, List.flatten_cons]
          rcases hmem with rfl | hmem
          · exact List.mem_append_left _ (hrowmem hc)
          · have := roundPass_rows oracle gs cs (cycle + 1)
              (applyOutcome st (rowOutcome oracle st (rows.getD c default))) rec (by rw [hr]; exact hmem)
            exact List.mem_append_right _ this
      · rcases hr : roundPass oracle gs cs cycle
            (applyOutcome st (rowOutcome oracle st (rows.getD c default))) with
          ⟨cs2, cyc3, st3, recs⟩
        simp only [roundPass] at hmem
        rw [if_pos hc, if_neg hp, hr] at hmem
        simp only [List.mem_cons] at hmem
        simp only [rowsOf, List.map_cons, List.flatten_cons]
        rcases hmem with rfl | hmem
        · exact List.mem_append_left _ (hrowmem hc)
        · have := roundPass_rows oracle gs cs cycle
            (applyOutcome st (rowOutcome oracle st (rows.getD c default))) rec (by rw [hr]; exact hmem)
          exact List.mem_append_right _ this
    · rcases hr : roundPass oracle gs cs cycle st with ⟨cs2, cyc3, st3, recs⟩
      simp only [roundPass] at hmem
      rw [if_neg hc, hr] at hmem
      simp only [rowsOf, List.map_cons, List.flatten_cons]
      exact List.mem_append_right _
        (roundPass_rows oracle gs cs cycle st rec (by rw [hr]; exact hmem))

/-- Every row the while-loop handles comes from the bucket list. -/
theorem dispatchRounds_rows (oracle : Nat → Option Nat) (gs : List (Int × List TraceRow)) :
    ∀ (fuel : Nat) (cs : List Nat) (cycle : Nat) (st : SimState) (rec : DispatchRec),
      rec ∈ flatRecs (dispatchRounds oracle gs fuel cs cycle st).2 → rec.row ∈ rowsOf gs
  | 0, cs, cycle, st, rec => by simp [dispatchRounds, flatRecs]
  | fuel + 1, cs, cycle, st, rec => by
    intro hmem
    unfold dispatchRounds at hmem
    by_cases hw : (decide (cycle < REQUESTS_PER_CYCLE) && anyRemaining gs cs) = true
    · rw [if_pos hw] at hmem
      rcases hr : roundPass oracle gs cs cycle st with ⟨cs2, cyc2, st2, recs⟩
      rw [hr] at hmem
      rcases hd : dispatchRounds oracle gs fuel cs2 cyc2 st2 with ⟨stF, rounds⟩
      simp only [hd, flatRecs, List.flatten_cons, List.mem_append] at hmem
      rcases hmem with hmem | hmem
      · exact roundPass_rows oracle gs cs cycle st rec (by rw [hr]; exact hmem)
      · exact dispatchRounds_rows oracle gs fuel cs2 cyc2 st2 rec
          (by rw [hd]; simpa [flatRecs] using hmem)
    · rw [if_neg hw] at hmem
      simp [flatRecs] at hmem

/-- Rows in the buckets after one grouping insertion. -/
theorem insertGrouped_rows (p : Int) (r : TraceRow) :
    ∀ (acc : List (Int × List TraceRow)) (x : TraceRow),
      x ∈ rowsOf (insertGrouped p r acc) → x = r ∨ x ∈ rowsOf acc
  | [], x => by simp [insertGrouped, rowsOf]
  | (q, rs) :: t, x => by
    intro hmem
    unfold insertGrouped at hmem
    by_cases h1 : p > q
    · rw [if_pos h1] at hmem
      simp only [rowsOf, List.map_cons, List.flatten_cons, List.mem_append,
        List.mem_singleton] at hmem ⊢
      tauto
    · rw [if_neg h1] at hmem
      by_cases h2 : p = q
      · rw [if_pos h2] at hmem
        simp only [rowsOf, List.map_cons, List.flatten_cons, List.mem_append,
          List.mem_singleton] at hmem ⊢
        tauto
      · rw [if_neg h2] at hmem
        simp only [rowsOf, List.map_cons, List.flatten_cons, List.mem_append] at hmem ⊢
        rcases hmem with hmem | hmem
        · tauto
        · rcases insertGrouped_rows p r t x (by simpa [rowsOf] using hmem) with h | h
          · tauto
          · simp only [rowsOf] at h
            tauto

/-- Every row in the grouping came from the input rows. -/
theorem group_by_priority_rows :
    ∀ (rows : List TraceRow) (acc : List (Int × List TraceRow)) (x : TraceRow),
      x ∈ rowsOf (rows.foldl (fun acc r => insertGrouped (r.priority.getD 0) r acc) acc) →
      x ∈ rows ∨ x ∈ rowsOf acc
  | [], acc, x => by simp
  | r :: rest, acc, x => by
    intro hmem
    simp only [List.foldl_cons] at hmem
    rcases group_by_priority_rows rest (insertGrouped (r.priority.getD 0) r acc) x hmem with
      h | h
    · exact Or.inl (List.mem_cons_of_mem r h)
    · rcases insertGrouped_rows (r.priority.getD 0) r acc x h with h2 | h2
      · subst h2
        exact Or.inl (List.mem_cons_self _ _)
      · exact Or.inr h2

set_option maxRecDepth 10000 in
/-- C6 counterexample: a batch of 101 same-priority valid rows followed
by a second batch.  The cycle budget (100) stops the first batch with
its 101st row (collection id 777) unconsumed; across the whole run that
row is never dispatched — 101 dispatches occur in total (100 from the
first batch, 1 from the second), none carrying id 777 — so the
remaining rows are discarded, not carried into the next batch. -/
theorem c6_counterexample_row_discarded :
    (flatAll (runBatches (fun _ => some 200)
        [List.replicate 100 (⟨some "a", some "1", none, none⟩ : TraceRow) ++
           [⟨some "a", some "777", none, none⟩],
         [⟨some "a", some "888", none, none⟩]] initSimState).2).length = 101
    ∧ (flatAll (runBatches (fun _ => some 200)
        [List.replicate 100 (⟨some "a", some "1", none, none⟩ : TraceRow) ++
           [⟨some "a", some "777", none, none⟩],
         [⟨some "a", some "888", none, none⟩]] initSimState).2).countP
        (fun r => r.row.collection_id == some "777") = 0
    ∧ (flatAll (runBatches (fun _ => some 200)
        [List.replicate 100 (⟨some "a", some "1", none, none⟩ : TraceRow) ++
           [⟨some "a", some "777", none, none⟩],
         [⟨some "a", some "888", none, none⟩]] initSimState).2).countP
        (fun r => r.row.collection_id == some "888") = 1 := by
  refine ⟨by with_unfolding_all rfl, by with_unfolding_all rfl, by with_unfolding_all rfl⟩

/-- C6 (amended): when the cycle budget is reached the dispatcher exits
the batch — at most 100 rows of a batch are POSTed — and every row it
handles comes from the current batch's own rows: unconsumed rows are
discarded, never carried into a later batch. -/
theorem c6_amended_budget_discards (oracle : Nat → Option Nat) (rows : List TraceRow)
    (st : SimState) :
    countPosts (flatRecs (process_chunk oracle rows st).2) ≤ REQUESTS_PER_CYCLE
    ∧ (∀ rec : DispatchRec, rec ∈ flatRecs (process_chunk oracle rows st).2 →
        rec.row ∈ rows) := by
  constructor
  · have := dispatchRounds_posts oracle (group_by_priority rows) (rows.length + 1)
      ((group_by_priority rows).map (fun _ => 0)) 0 st (by simp [REQUESTS_PER_CYCLE])
    simpa [process_chunk] using this
  · intro rec hmem
    have h1 : rec.row ∈ rowsOf (group_by_priority rows) :=
      dispatchRounds_rows oracle (group_by_priority rows) (rows.length + 1)
        ((group_by_priority rows).map (fun _ => 0)) 0 st rec (by simpa [process_chunk] using hmem)
    rcases group_by_priority_rows rows [] rec.row h1 with h | h
    · exact h
    · simp [rowsOf] at h

/-- C6 witness: the amended statement applied to a two-row batch. -/
theorem c6_amended_budget_discards_witness :
    TraceRow.mk (some "a") (some "1") none none ∈
      [(⟨some "a", some "1", none, none⟩ : TraceRow), ⟨some "b", some "2", none, none⟩] :=
  (c6_amended_budget_discards (fun _ => some 200)
      [⟨some "a", some "1", none, none⟩, ⟨some "b", some "2", none, none⟩] initSimState).2
    ⟨0, ⟨some "a", some "1", none, none⟩, .posted (some 200)⟩
    (by with_unfolding_all decide)

/-- The priorities a round serves form a subsequence of the bucket
priorities, in bucket order. -/
theorem roundPass_sublist (oracle : Nat → Option Nat) :
    ∀ (gs : List (Int × List TraceRow)) (cs : List Nat) (cycle : Nat) (st : SimState),
      ((roundPass oracle gs cs cycle st).2.2.2.map DispatchRec.priority).Sublist
        (gs.map Prod.fst)
  | [], _, cycle, st => by simp [roundPass]
  | _ :: _, [], cycle, st => by simp [roundPass]
  | (p, rows) :: gs, c :: cs, cycle, st => by
    by_cases hc : c < rows.length
    · by_cases hp : isPost (rowOutcome oracle st (rows.getD c default))
      · by_cases hb : REQUESTS_PER_CYCLE ≤ cycle + 1
        · simp only [roundPass]
          rw [if_pos hc, if_pos hp, if_pos hb]
          simp only [List.map_cons, List.map_nil]
          exact (List.nil_sublist _).cons₂ p
        · rcases hr : roundPass oracle gs cs (cycle + 1)
              (applyOutcome st (rowOutcome oracle st (rows.getD c default))) with
            ⟨cs2, cyc3, st3, recs⟩
          simp only [roundPass]
          rw [if_pos hc, if_pos hp, if_neg hb, hr]
          simp only [List.map_cons]
          refine List.Sublist.cons₂ p ?_
          have := roundPass_sublist oracle gs cs (cycle + 1)
            (applyOutcome st (rowOutcome oracle st (rows.getD c default)))
          rw [hr] at this
          exact this
      · rcases hr : roundPass oracle gs cs cycle
            (applyOutcome st (rowOutcome oracle st (rows.getD c default))) with
          ⟨cs2, cyc3, st3, recs⟩
        simp only [roundPass]
        rw [if_pos hc, if_neg hp, hr]
        simp only [List.map_cons]
        refine List.Sublist.cons₂ p ?_
        have := roundPass_sublist oracle gs cs cycle
          (applyOutcome st (rowOutcome oracle st (rows.getD c default)))
        rw [hr] at this
        exact this
    · rcases hr : roundPass oracle gs cs cycle st with ⟨cs2, cyc3, st3, recs⟩
      simp only [roundPass]
      rw [if_neg hc, hr]
      simp only [List.map_cons]
      refine List.Sublist.cons p ?_
      have := roundPass_sublist oracle gs cs cycle st
      rw [hr] at this
      exact this

/-- Keys present after one grouping insertion. -/
theorem insertGrouped_keys (p : Int) (r : TraceRow) :
    ∀ (acc : List (Int × List TraceRow)) (x : Int × List TraceRow),
      x ∈ insertGrouped p r acc → x.1 = p ∨ x.1 ∈ acc.map Prod.fst
  | [], x => by simp [insertGrouped]; intro h; simp [h]
  | (q, rs) :: t, x => by
    intro hmem
    unfold insertGrouped at hmem
    by_cases h1 : p > q
    · rw [if_pos h1] at hmem
      simp only [List.mem_cons, List.map_cons] at hmem ⊢
      rcases hmem with rfl | rfl | hmem
      · exact Or.inl rfl
      · exact Or.inr (Or.inl rfl)
      · exact Or.inr (Or.inr (List.mem_map_of_mem Prod.fst hmem))
    · rw [if_neg h1] at hmem
      by_cases h2 : p = q
      · rw [if_pos h2] at hmem
        simp only [List.mem_cons, List.map_cons] at hmem ⊢
        rcases hmem with rfl | hmem
        · exact Or.inr (Or.inl rfl)
        · exact Or.inr (Or.inr (List.mem_map_of_mem Prod.fst hmem))
      · rw [if_neg h2] at hmem
        simp only [List.mem_cons, List.map_cons] at hmem ⊢
        rcases hmem with rfl | hmem
        · exact Or.inr (Or.inl rfl)
        · rcases insertGrouped_keys p r t x hmem with h | h
          · exact Or.inl h
          · exact Or.inr (Or.inr h)

/-- Grouping insertion preserves strictly-descending keys. -/
theorem insertGrouped_pairwise (p : Int) (r : TraceRow) :
    ∀ (acc : List (Int × List TraceRow)),
      acc.Pairwise (fun a b => a.1 > b.1) →
      (insertGrouped p r acc).Pairwise (fun a b => a.1 > b.1)
  | [], _ => by simp [insertGrouped]
  | (q, rs) :: t, hpw => by
    rcases List.pairwise_cons.mp hpw with ⟨hq, ht⟩
    unfold insertGrouped
    by_cases h1 : p > q
    · rw [if_pos h1]
      refine List.pairwise_cons.mpr ⟨?_, hpw⟩
      intro x hx
      rcases List.mem_cons.mp hx with rfl | hx
      · exact h1
      · exact lt_trans (hq x hx) h1
    · rw [if_neg h1]
      by_cases h2 : p = q
      · rw [if_pos h2]
        exact List.pairwise_cons.mpr ⟨fun x hx => hq x hx, ht⟩
      · rw [if_neg h2]
        refine List.pairwise_cons.mpr ⟨?_, insertGrouped_pairwise p r t ht⟩
        intro x hx
        rcases insertGrouped_keys p r t x hx with h | h
        · rw [h]; omega
        · rcases List.mem_map.mp h with ⟨y, hy, hxy⟩
          rw [← hxy]
          exact hq y hy

/-- The grouping produces buckets with strictly-descending priorities. -/
theorem group_by_priority_pairwise_aux :
    ∀ (rows : List TraceRow) (acc : List (Int × List TraceRow)),
      acc.Pairwise (fun a b => a.1 > b.1) →
      (rows.foldl (fun acc r => insertGrouped (r.priority.getD 0) r acc) acc).Pairwise
        (fun a b => a.1 > b.1)
  | [], acc, h => h
  | r :: rest, acc, h => by
    simp only [List.foldl_cons]
    exact group_by_priority_pairwise_aux rest _ (insertGrouped_pairwise _ r acc h)

theorem group_by_priority_pairwise (rows : List TraceRow) :
    (group_by_priority rows).Pairwise (fun a b => a.1 > b.1) :=
  group_by_priority_pairwise_aux rows [] (List.Pairwise.nil)

/-- Every round the while-loop emits serves a subsequence of the bucket
priorities. -/
theorem dispatchRounds_round_sublist (oracle : Nat → Option Nat)
    (gs : List (Int × List TraceRow)) :
    ∀ (fuel : Nat) (cs : List Nat) (cycle : Nat) (st : SimState) (round : List DispatchRec),
      round ∈ (dispatchRounds oracle gs fuel cs cycle st).2 →
      (round.map DispatchRec.priority).Sublist (gs.map Prod.fst)
  | 0, cs, cycle, st, round => by simp [dispatchRounds]
  | fuel + 1, cs, cycle, st, round => by
    intro hmem
    unfold dispatchRounds at hmem
    by_cases hw : (decide (cycle < REQUESTS_PER_CYCLE) && anyRemaining gs cs) = true
    · rw [if_pos hw] at hmem
      rcases hr : roundPass oracle gs cs cycle st with ⟨cs2, cyc2, st2, recs⟩
      rcases hd : dispatchRounds oracle gs fuel cs2 cyc2 st2 with ⟨stF, rounds⟩
      rw [hr] at hmem
      simp only [hd, List.mem_cons] at hmem
      rcases hmem with rfl | hmem
      · have := roundPass_sublist oracle gs cs cycle st
        rw [hr] at this
        exact this
      · exact dispatchRounds_round_sublist oracle gs fuel cs2 cyc2 st2 round
          (by rw [hd]; exact hmem)
    · rw [if_neg hw] at hmem
      simp at hmem

/-- C7: in every complete or budget-cut round of any batch the buckets
are served in strictly descending priority order, each bucket at most
once per round (strict round-robin fairness, no starvation of lower
priorities within a round); and in the spec's concrete scenario —
priority groups of sizes [3, 1, 2] at priorities [5, 5, 1] (the equal
keys merge into one priority-5 bucket) with the cycle budget 100 ≥ 6 —
the dispatch rounds serve priorities [5, 1], [5, 1], [5], [5]: the
priority-5 bucket is served before the priority-1 bucket in every round
and the priority-1 bucket never waits more than one full round. -/
theorem c7_round_robin_fairness :
    (∀ (oracle : Nat → Option Nat) (rows : List TraceRow) (st : SimState)
        (idx : Nat) (round : List DispatchRec),
        (process_chunk oracle rows st).2[idx]? = some round →
        (round.map DispatchRec.priority).Pairwise (· > ·))
    ∧ (process_chunk (fun _ => some 200)
          (List.replicate 3 (⟨some "a", some "1", none, some 5⟩ : TraceRow) ++
            [⟨some "a", some "2", none, some 5⟩] ++
            List.replicate 2 (⟨some "a", some "3", none, some 1⟩ : TraceRow))
          initSimState).2.map (fun r => r.map DispatchRec.priority) =
        [[5, 1], [5, 1], [5], [5]] := by
  constructor
  · intro oracle rows st idx round hidx
    have hmem : round ∈ (process_chunk oracle rows st).2 := by
      rcases List.getElem?_eq_some_iff.mp hidx with ⟨hlt, hget⟩
      rw [← hget]
      exact List.getElem_mem hlt
    have hsub : (round.map DispatchRec.priority).Sublist
        ((group_by_priority rows).map Prod.fst) :=
      dispatchRounds_round_sublist oracle (group_by_priority rows) (rows.length + 1)
        ((group_by_priority rows).map (fun _ => 0)) 0 st round
        (by simpa [process_chunk] using hmem)
    have hpw : ((group_by_priority rows).map Prod.fst).Pairwise (· > ·) :=
      List.pairwise_map.mpr (group_by_priority_pairwise rows)
    exact hpw.sublist hsub
  · with_unfolding_all rfl

/-- C7 witness: the fairness statement applied to the first round of the
concrete scenario. -/
theorem c7_round_robin_fairness_witness :
    (List.map DispatchRec.priority
      [⟨5, ⟨some "a", some "1", none, some 5⟩, .posted (some 200)⟩,
       ⟨1, ⟨some "a", some "3", none, some 1⟩, .posted (some 200)⟩]).Pairwise (· > ·) :=
  c7_round_robin_fairness.1 (fun _ => some 200)
    (List.replicate 3 (⟨some "a", some "1", none, some 5⟩ : TraceRow) ++
      [⟨some "a", some "2", none, some 5⟩] ++
      List.replicate 2 (⟨some "a", some "3", none, some 1⟩ : TraceRow))
    initSimState 0
    [⟨5, ⟨some "a", some "1", none, some 5⟩, .posted (some 200)⟩,
     ⟨1, ⟨some "a", some "3", none, some 1⟩, .posted (some 200)⟩]
    (by with_unfolding_all rfl)
